import Mathlib

/-!
Shallow embedding of the Logotopia realtime relay server (server.js).

The server keeps a Map `players` from session id to a record
`{ ws, lastSeen, state }`.  We model the Map as an association list in
insertion order (JS Maps iterate in insertion order), channels as a record
carrying the `readyState` field, and the JSON values relayed between the
clients as an inductive `JVal` with JS truthiness.  Session ids (uuidv4
strings in the source) are modelled as natural numbers drawn from a supply
counter; generating a fresh id consumes one value of the supply.

Effects (sends on a channel, closing a channel, fan-outs and backend
calls) are returned as explicit action lists so the theorems can speak
about exactly which messages each session receives.
-/

set_option linter.unusedVariables false

namespace Logotopia

/-- A JSON-like value as relayed by the server.  Numbers are modelled as
integers; this is enough for every claim, which treats the payloads as
opaque except for their JS truthiness. -/
inductive JVal : Type
  | jnull : JVal
  | jbool : Bool → JVal
  | jnum : Int → JVal
  | jstr : String → JVal
  | jarr : List JVal → JVal
  | jobj : List (String × JVal) → JVal

/-- JS truthiness of a `JVal` (`null`, `false`, `0` and the empty string
are falsy; arrays and objects are always truthy). -/
def truthy : JVal → Bool
  | JVal.jnull => false
  | JVal.jbool b => b
  | JVal.jnum n => n != 0
  | JVal.jstr s => !s.isEmpty
  | JVal.jarr _ => true
  | JVal.jobj _ => true

/-- JS truthiness of a possibly absent (`undefined`) field value. -/
def truthyOpt : Option JVal → Bool
  | none => false
  | some v => truthy v

/-- JS truthiness of a possibly absent string field (absent and the empty
string are falsy). -/
def truthyS : Option String → Bool
  | none => false
  | some s => !s.isEmpty

/-- JS `x || ''` on a possibly absent string field. -/
def orEmpty : Option String → String
  | none => ""
  | some s => s

/-- A websocket channel; `readyState = 1` is the OPEN state the server
tests before each send. -/
structure Channel where
  readyState : Nat
deriving DecidableEq

/-- One connected client as stored in the `players` Map:
`{ ws, lastSeen: Date.now(), state: null }`. -/
structure Session where
  ws : Channel
  lastSeen : Nat
  state : Option JVal

/-- The `players` Map, in insertion order. -/
abbrev Registry := List (Nat × Session)

/-- The keys of the registry. -/
def keys (reg : Registry) : List Nat := reg.map Prod.fst

/-- The lookup `players.get(i)`. -/
def mapGet (reg : Registry) (i : Nat) : Option Session :=
  match reg with
  | [] => none
  | e :: rest => if e.1 = i then some e.2 else mapGet rest i

/-- The update `players.set(i, s)`: update in place if the key is present (keeping
its position, as a JS Map does), append otherwise. -/
def mapSet (reg : Registry) (i : Nat) (s : Session) : Registry :=
  match reg with
  | [] => [(i, s)]
  | e :: rest => if e.1 = i then (i, s) :: rest else e :: mapSet rest i s

/-- The removal `players.delete(i)`. -/
def mapDelete (reg : Registry) (i : Nat) : Registry :=
  match reg with
  | [] => []
  | e :: rest => if e.1 = i then rest else e :: mapDelete rest i

/-- The admission limit, `MAX_PLAYERS = 8`. -/
def MAX_PLAYERS : Nat := 8

/-- The stale threshold, `STALE_TIMEOUT = 15000` (milliseconds). -/
def STALE_TIMEOUT : Nat := 15000

/-- The sweep interval of the stale-cleanup timer, milliseconds
(`setInterval(..., 10000)`). -/
def SWEEP_INTERVAL : Nat := 10000

/-- An outbound message, one constructor per `type` tag the server emits. -/
inductive OutMsg : Type
  | full : OutMsg
  | welcome : Nat → List (Nat × JVal) → OutMsg
  | join : Nat → OutMsg
  | leave : Nat → OutMsg
  | state : Nat → Option JVal → OutMsg
  | code : String → String → Nat → OutMsg
  | codeError : String → String → OutMsg
  | narrativeResult : Option JVal → JVal → OutMsg
  | narrativeError : Option JVal → String → OutMsg

/-- An inbound message after `JSON.parse`, restricted to the fields the
relay reads.  `none` models an absent (`undefined`) field.  The narrative
context fields that flow only into the text of the backend call
(`storySeed`, `npcList`, `history`, `currentNarrative`) are untouched by
the relay logic and are not modelled. -/
structure InMsg where
  type : Option JVal
  data : Option JVal
  prompt : Option String
  apiKey : Option String
  settlementId : Option JVal
  name : Option String

/-- Does `msg.type === s` hold (strict equality against a string tag)? -/
def isType (t : Option JVal) (s : String) : Bool :=
  match t with
  | some (JVal.jstr x) => x == s
  | _ => false

/-- An effect requested by a handler: a send on the handling connection
itself, closing that connection, a fan-out through `broadcast`, or an
asynchronous backend call (`handleAI` / `handleNarrative`). -/
inductive Act : Type
  | sendSelf : OutMsg → Act
  | closeSelf : Act
  | bcast : OutMsg → Option Nat → Act
  | callAI : Nat → String → String → Act
  | callNarrative : Nat → InMsg → Act

/-- The roster builder `getPlayerStates()`: the roster of `{id, data: p.state}` entries for
every player whose `state` field is truthy. -/
def getPlayerStates (reg : Registry) : List (Nat × JVal) :=
  reg.filterMap fun e =>
    match e.2.state with
    | some v => if truthy v then some (e.1, v) else none
    | none => none

/-- The per-recipient sends performed by `broadcast(msg, excludeId)`:
every registered session whose id differs from the excluded one and whose
channel is open receives the message; every other entry is skipped. -/
def broadcastSends (reg : Registry) (m : OutMsg) (excludeId : Option Nat) :
    List (Nat × OutMsg) :=
  reg.filterMap fun e =>
    if some e.1 ≠ excludeId ∧ e.2.ws.readyState = 1 then some (e.1, m) else none

/-- The per-recipient sends performed by `broadcastAll(msg)`. -/
def broadcastAllSends (reg : Registry) (m : OutMsg) : List (Nat × OutMsg) :=
  reg.filterMap fun e =>
    if e.2.ws.readyState = 1 then some (e.1, m) else none

/-- The `broadcast` loop as a state transformer: it reads the registry to
produce the sends and never writes it. -/
def broadcastStep (reg : Registry) (m : OutMsg) (excludeId : Option Nat) :
    Registry × List (Nat × OutMsg) :=
  (reg, broadcastSends reg m excludeId)

/-- The `wss.on('connection')` handler up to the point where the message
and close callbacks are installed.  `nextId` is the fresh-identifier
supply (uuidv4 in the source); admitting a client consumes one identifier.
At or above `MAX_PLAYERS` live sessions the connection is told `full` and
closed without touching the registry or the supply. -/
def handleConnection (reg : Registry) (nextId : Nat) (ch : Channel) (now : Nat) :
    Registry × Nat × List Act :=
  if reg.length ≥ MAX_PLAYERS then
    (reg, nextId, [Act.sendSelf OutMsg.full, Act.closeSelf])
  else
    let reg' := mapSet reg nextId (Session.mk ch now none)
    (reg', nextId + 1,
      [Act.sendSelf (OutMsg.welcome nextId (getPlayerStates reg')),
       Act.bcast (OutMsg.join nextId) (some nextId)])

/-- The `ws.on('message')` handler for a connection whose assigned id is
`selfId`.  A `state` message refreshes `lastSeen` and overwrites `state`
when the session is still registered, then broadcasts to everyone else; a
well-formed `ai` message dispatches `handleAI` with the prompt cut to its
first 500 characters; an `ai` message missing its prompt or key is
answered locally with `code_error`; a `narrative` message is dispatched
only when its key is truthy, and is dropped without any reply otherwise. -/
def handleMessage (reg : Registry) (selfId : Nat) (now : Nat) (msg : InMsg) :
    Registry × List Act :=
  if isType msg.type "state" then
    let reg' :=
      match mapGet reg selfId with
      | some p => mapSet reg selfId (Session.mk p.ws now msg.data)
      | none => reg
    (reg', [Act.bcast (OutMsg.state selfId msg.data) (some selfId)])
  else if isType msg.type "ai" && truthyS msg.prompt && truthyS msg.apiKey then
    (reg, [Act.callAI selfId ((orEmpty msg.prompt).take 500) (orEmpty msg.apiKey)])
  else if isType msg.type "ai" then
    (reg, [Act.sendSelf (OutMsg.codeError "Missing API key or prompt" (orEmpty msg.prompt))])
  else if isType msg.type "narrative" && truthyS msg.apiKey then
    (reg, [Act.callNarrative selfId msg])
  else
    (reg, [])

/-- The `ws.on('close')` handler: remove the session and broadcast
`leave` with no exclusion. -/
def handleClose (reg : Registry) (selfId : Nat) : Registry × List Act :=
  (mapDelete reg selfId, [Act.bcast (OutMsg.leave selfId) none])

/-- The fence stripping `handleAI` applies to the model output:
`code.replace(/^3 backticks(?:javascript|js)?\n?/, '').replace(/\n?3 backticks$/, '')`,
run only when the text starts with a fence. -/
def stripCodeFences (s : String) : String :=
  if s.startsWith "```" then
    let t1 := s.drop 3
    let t2 :=
      if t1.startsWith "javascript" then t1.drop 10
      else if t1.startsWith "js" then t1.drop 2
      else t1
    let t3 := if t2.startsWith "\n" then t2.drop 1 else t2
    if t3.endsWith "\n```" then t3.dropRight 4
    else if t3.endsWith "```" then t3.dropRight 3
    else t3
  else s

/-- The fence stripping `handleNarrative` applies, with the `json`
language tag instead of `javascript`/`js`. -/
def stripJsonFences (s : String) : String :=
  if s.startsWith "```" then
    let t1 := s.drop 3
    let t2 := if t1.startsWith "json" then t1.drop 4 else t1
    let t3 := if t2.startsWith "\n" then t2.drop 1 else t2
    if t3.endsWith "\n```" then t3.dropRight 4
    else if t3.endsWith "```" then t3.dropRight 3
    else t3
  else s

/-- The completion of `handleAI` once the backend call resolves, against
the registry at that moment.  `Except.ok text` is a successful response
(its first content block trimmed), `Except.error e` any thrown failure
(transport error, backend error, malformed response shape).  Success
broadcasts the generated code to everyone; failure answers only the
requesting session, and only if it is still registered with an open
channel. -/
def handleAIComplete (reg : Registry) (authorId : Nat) (prompt : String)
    (outcome : Except String String) : List (Nat × OutMsg) :=
  match outcome with
  | Except.ok text =>
    broadcastAllSends reg (OutMsg.code (stripCodeFences text.trim) prompt authorId)
  | Except.error e =>
    match mapGet reg authorId with
    | some p =>
      if p.ws.readyState = 1 then [(authorId, OutMsg.codeError e prompt)] else []
    | none => []

/-- The completion of `handleNarrative`.  On a successful response the
cleaned text is fed to `JSON.parse` (modelled by the `parseJson`
parameter, whose error value is the thrown message); a parse failure is
caught by the same handler as a transport or backend failure and answered
with `narrative_error` to the requester only. -/
def handleNarrativeComplete (parseJson : String → Except String JVal)
    (reg : Registry) (authorId : Nat) (settlementId : Option JVal)
    (outcome : Except String String) : List (Nat × OutMsg) :=
  match outcome with
  | Except.ok text =>
    match parseJson (stripJsonFences text.trim) with
    | Except.ok result =>
      broadcastAllSends reg (OutMsg.narrativeResult settlementId result)
    | Except.error e =>
      match mapGet reg authorId with
      | some p =>
        if p.ws.readyState = 1 then [(authorId, OutMsg.narrativeError settlementId e)]
        else []
      | none => []
  | Except.error e =>
    match mapGet reg authorId with
    | some p =>
      if p.ws.readyState = 1 then [(authorId, OutMsg.narrativeError settlementId e)]
      else []
    | none => []

/-- One entry of the stale-cleanup loop body is stale at time `now` when
`now - p.lastSeen > STALE_TIMEOUT`. -/
def isStale (now : Nat) (e : Nat × Session) : Bool :=
  decide (now - e.2.lastSeen > STALE_TIMEOUT)

/-- The body of the stale-cleanup sweep.  The JS `for..of` over the Map
visits every entry even while the loop body deletes the current one, so
the visit order is the original entry list while the registry itself
shrinks; each eviction event records the evicted id (its channel is
terminated) together with the `leave` fan-out computed against the
registry just after the deletion. -/
def sweepGo (now : Nat) : List (Nat × Session) → Registry →
    Registry × List (Nat × List (Nat × OutMsg))
  | [], reg => (reg, [])
  | e :: rest, reg =>
    if isStale now e then
      let reg' := mapDelete reg e.1
      let res := sweepGo now rest reg'
      (res.1, (e.1, broadcastSends reg' (OutMsg.leave e.1) none) :: res.2)
    else
      sweepGo now rest reg

/-- One run of the `setInterval` stale-cleanup callback at time `now`. -/
def sweep (now : Nat) (reg : Registry) : Registry × List (Nat × List (Nat × OutMsg)) :=
  sweepGo now reg reg

theorem mapGet_eq_none_iff (reg : Registry) (i : Nat) :
    mapGet reg i = none ↔ i ∉ keys reg := by
  induction reg with
  | nil => simp [mapGet, keys]
  | cons e rest ih =>
    by_cases h : e.1 = i
    · simp [mapGet, h, keys]
    · simp [mapGet, h, keys, ih]
      intro hri
      exact fun hc => h hc.symm

theorem mapGet_mem {reg : Registry} {i : Nat} {p : Session}
    (h : mapGet reg i = some p) : (i, p) ∈ reg := by
  induction reg with
  | nil => simp [mapGet] at h
  | cons e rest ih =>
    cases e with
    | mk a b =>
      by_cases he : a = i
      · subst he
        rw [mapGet, if_pos rfl] at h
        cases h
        exact List.mem_cons_self _ _
      · rw [mapGet, if_neg he] at h
        exact List.mem_cons_of_mem _ (ih h)

theorem mapGet_isSome_of_mem {reg : Registry} {i : Nat} {p : Session}
    (h : (i, p) ∈ reg) : i ∈ keys reg := by
  simp only [keys, List.mem_map]
  exact ⟨(i, p), h, rfl⟩

theorem mem_mapGet {reg : Registry} (hnd : (keys reg).Nodup) {i : Nat} {p : Session}
    (h : (i, p) ∈ reg) : mapGet reg i = some p := by
  induction reg with
  | nil => simp at h
  | cons e rest ih =>
    rcases List.mem_cons.mp h with heq | hmem
    · cases heq
      simp [mapGet]
    · have hi : i ∈ keys rest := mapGet_isSome_of_mem hmem
      have he : e.1 ≠ i := by
        intro hc
        rw [keys, List.map_cons] at hnd
        exact (List.nodup_cons.mp hnd).1 (hc ▸ hi)
      rw [mapGet, if_neg he]
      exact ih ((List.nodup_cons.mp (by rwa [keys, List.map_cons] at hnd)).2) hmem

theorem mapSet_fresh (reg : Registry) (i : Nat) (s : Session) (h : i ∉ keys reg) :
    mapSet reg i s = reg ++ [(i, s)] := by
  induction reg with
  | nil => simp [mapSet]
  | cons e rest ih =>
    have he : e.1 ≠ i := by
      intro hc
      exact h (by simp [keys, hc])
    rw [mapSet, if_neg he, ih (fun hc => h (by simp [keys] at hc ⊢; right; exact hc))]
    simp

theorem mapGet_mapSet_self (reg : Registry) (i : Nat) (s : Session) :
    mapGet (mapSet reg i s) i = some s := by
  induction reg with
  | nil => simp [mapSet, mapGet]
  | cons e rest ih =>
    cases e with
    | mk a b =>
      by_cases he : a = i
      · rw [mapSet, if_pos he, mapGet, if_pos rfl]
      · rw [mapSet, if_neg he, mapGet, if_neg he]
        exact ih

theorem mapGet_mapSet_ne (reg : Registry) (i j : Nat) (s : Session) (h : j ≠ i) :
    mapGet (mapSet reg i s) j = mapGet reg j := by
  induction reg with
  | nil =>
    simp [mapSet, mapGet, Ne.symm h]
  | cons e rest ih =>
    cases e with
    | mk a b =>
      by_cases he : a = i
      · subst he
        rw [mapSet, if_pos rfl, mapGet, mapGet, if_neg (Ne.symm h), if_neg (Ne.symm h)]
      · by_cases hej : a = j
        · rw [mapSet, if_neg he, mapGet, if_pos hej, mapGet, if_pos hej]
        · rw [mapSet, if_neg he, mapGet, if_neg hej, mapGet, if_neg hej]
          exact ih

theorem mapDelete_append (done rest : Registry) (i : Nat) (p : Session)
    (h : i ∉ keys done) : mapDelete (done ++ (i, p) :: rest) i = done ++ rest := by
  induction done with
  | nil =>
    rw [List.nil_append, List.nil_append, mapDelete, if_pos rfl]
  | cons e d ih =>
    have he : e.1 ≠ i := by
      intro hc
      exact h (by simp [keys, hc])
    rw [List.cons_append, List.cons_append, mapDelete, if_neg he]
    rw [ih (fun hc => h (by simp [keys] at hc ⊢; right; exact hc))]

theorem mapGet_append_mid (done rest : Registry) (e : Nat × Session) (j : Nat)
    (h : j ≠ e.1) : mapGet (done ++ e :: rest) j = mapGet (done ++ rest) j := by
  induction done with
  | nil =>
    rw [List.nil_append, List.nil_append, mapGet, if_neg (Ne.symm h)]
  | cons f d ih =>
    by_cases hf : f.1 = j
    · rw [List.cons_append, List.cons_append, mapGet, if_pos hf, mapGet, if_pos hf]
    · rw [List.cons_append, List.cons_append, mapGet, if_neg hf, mapGet, if_neg hf]
      exact ih

theorem mem_broadcastSends {reg : Registry} {m : OutMsg} {ex : Option Nat}
    {j : Nat} {m' : OutMsg} :
    (j, m') ∈ broadcastSends reg m ex ↔
      m' = m ∧ some j ≠ ex ∧ ∃ p, (j, p) ∈ reg ∧ p.ws.readyState = 1 := by
  constructor
  · intro h
    rcases List.mem_filterMap.mp h with ⟨e, he, hf⟩
    by_cases hc : some e.1 ≠ ex ∧ e.2.ws.readyState = 1
    · rw [if_pos hc] at hf
      cases hf
      exact ⟨rfl, hc.1, e.2, by simpa using he, hc.2⟩
    · rw [if_neg hc] at hf
      cases hf
  · rintro ⟨rfl, hx, p, hp, hr⟩
    exact List.mem_filterMap.mpr ⟨(j, p), hp, by simp [hx, hr]⟩

theorem broadcastSends_count_zero {reg : Registry} {m : OutMsg} {ex : Option Nat}
    {j : Nat} (h : j ∉ keys reg) :
    ((broadcastSends reg m ex).filter (fun s => decide (s.1 = j))).length = 0 := by
  rw [List.length_eq_zero]
  rw [List.filter_eq_nil_iff]
  intro s hs
  cases s with
  | mk i m' =>
    rcases mem_broadcastSends.mp hs with ⟨_, _, p, hp, _⟩
    simp only [decide_eq_true_eq]
    intro hc
    exact h (hc ▸ mapGet_isSome_of_mem hp)

theorem broadcastSends_count_one {reg : Registry} {m : OutMsg} {ex : Option Nat}
    {j : Nat} {p : Session} (hnd : (keys reg).Nodup)
    (h : mapGet reg j = some p) (hr : p.ws.readyState = 1) (hx : some j ≠ ex) :
    ((broadcastSends reg m ex).filter (fun s => decide (s.1 = j))).length = 1 := by
  induction reg with
  | nil => simp [mapGet] at h
  | cons e rest ih =>
    have hnd' : (keys rest).Nodup :=
      (List.nodup_cons.mp (by rwa [keys, List.map_cons] at hnd)).2
    by_cases he : e.1 = j
    · rw [mapGet, if_pos he] at h
      cases h
      have hj : j ∉ keys rest := by
        rw [keys, List.map_cons] at hnd
        exact he ▸ (List.nodup_cons.mp hnd).1
      have hz := @broadcastSends_count_zero rest m ex j hj
      simp only [broadcastSends, List.filterMap_cons] at hz ⊢
      rw [if_pos ⟨he ▸ hx, hr⟩]
      simp [List.filter_cons, he, hz]
    · rw [mapGet, if_neg he] at h
      have hres := ih hnd' h
      simp only [broadcastSends, List.filterMap_cons] at hres ⊢
      by_cases hc : some e.1 ≠ ex ∧ e.2.ws.readyState = 1
      · rw [if_pos hc]
        simpa [List.filter_cons, he] using hres
      · rw [if_neg hc]
        exact hres

theorem broadcastAll_eq_no_exclude (reg : Registry) (m : OutMsg) :
    broadcastAllSends reg m = broadcastSends reg m none := by
  induction reg with
  | nil => rfl
  | cons e rest ih =>
    rw [broadcastAllSends, broadcastSends, List.filterMap_cons, List.filterMap_cons]
    by_cases hr : e.2.ws.readyState = 1
    · rw [if_pos hr, if_pos ⟨by simp, hr⟩]
      rw [show (rest.filterMap fun e =>
            if e.2.ws.readyState = 1 then some (e.1, m) else none) =
          broadcastAllSends rest m from rfl]
      rw [show (rest.filterMap fun e =>
            if some e.1 ≠ none ∧ e.2.ws.readyState = 1 then some (e.1, m) else none) =
          broadcastSends rest m none from rfl]
      rw [ih]
    · rw [if_neg hr, if_neg (by simp [hr])]
      exact ih

theorem mem_getPlayerStates {reg : Registry} {i : Nat} {v : JVal} :
    (i, v) ∈ getPlayerStates reg ↔
      ∃ p, (i, p) ∈ reg ∧ p.state = some v ∧ truthy v := by
  constructor
  · intro h
    rcases List.mem_filterMap.mp h with ⟨e, he, hf⟩
    cases hs : e.2.state with
    | none => rw [hs] at hf; cases hf
    | some w =>
      simp only [hs] at hf
      by_cases ht : truthy w
      · rw [if_pos ht] at hf
        cases hf
        exact ⟨e.2, by simpa using he, hs, ht⟩
      · rw [if_neg ht] at hf
        cases hf
  · rintro ⟨p, hp, hs, ht⟩
    exact List.mem_filterMap.mpr ⟨(i, p), hp, by simp [hs, ht]⟩

theorem getPlayerStates_append (a b : Registry) :
    getPlayerStates (a ++ b) = getPlayerStates a ++ getPlayerStates b :=
  List.filterMap_append a b _

theorem keys_append (a b : Registry) : keys (a ++ b) = keys a ++ keys b :=
  List.map_append _ a b

theorem sweepGo_spec (now : Nat) (l done : Registry)
    (hnd : (keys (done ++ l)).Nodup) :
    (sweepGo now l (done ++ l)).1 = done ++ l.filter (fun e => !isStale now e) ∧
    (sweepGo now l (done ++ l)).2.map Prod.fst = (l.filter (isStale now)).map Prod.fst ∧
    ∀ ev ∈ (sweepGo now l (done ++ l)).2,
      ∃ r : Registry,
        ev.2 = broadcastSends r (OutMsg.leave ev.1) none ∧
        ev.1 ∉ keys r ∧
        r.Sublist (done ++ l) ∧
        (done ++ l.filter (fun e => !isStale now e)).Sublist r := by
  induction l generalizing done with
  | nil =>
    refine ⟨by simp [sweepGo], by simp [sweepGo], ?_⟩
    intro ev hev
    simp [sweepGo] at hev
  | cons e rest ih =>
    have hmid : (keys done ++ e.1 :: keys rest).Nodup := by
      have : keys (done ++ e :: rest) = keys done ++ e.1 :: keys rest := by
        simp [keys]
      rwa [this] at hnd
    have hnotin : e.1 ∉ keys done ∧ e.1 ∉ keys rest := by
      have h1 := (List.nodup_middle.mp hmid)
      rcases List.nodup_cons.mp h1 with ⟨hni, _⟩
      constructor
      · exact fun hc => hni (List.mem_append.mpr (Or.inl hc))
      · exact fun hc => hni (List.mem_append.mpr (Or.inr hc))
    have hnd' : (keys (done ++ rest)).Nodup := by
      have h1 := (List.nodup_middle.mp hmid)
      have h2 := (List.nodup_cons.mp h1).2
      rwa [keys_append]
    by_cases hst : isStale now e = true
    · have hdel : mapDelete (done ++ e :: rest) e.1 = done ++ rest := by
        cases e with
        | mk a b => exact mapDelete_append done rest a b hnotin.1
      have hfe : List.filter (fun e => !isStale now e) (e :: rest) =
          List.filter (fun e => !isStale now e) rest := by
        simp [List.filter_cons, hst]
      have hfs : List.filter (isStale now) (e :: rest) =
          e :: List.filter (isStale now) rest := by
        simp [List.filter_cons, hst]
      have hstep1 : (sweepGo now (e :: rest) (done ++ e :: rest)).1 =
          (sweepGo now rest (done ++ rest)).1 := by
        simp [sweepGo, hst, hdel]
      have hstep2 : (sweepGo now (e :: rest) (done ++ e :: rest)).2 =
          (e.1, broadcastSends (done ++ rest) (OutMsg.leave e.1) none) ::
            (sweepGo now rest (done ++ rest)).2 := by
        simp [sweepGo, hst, hdel]
      rcases ih done hnd' with ⟨ih1, ih2, ih3⟩
      refine ⟨?_, ?_, ?_⟩
      · rw [hstep1, ih1, hfe]
      · rw [hstep2, hfs, List.map_cons, List.map_cons, ih2]
      · rw [hstep2]
        intro ev hev
        rcases List.mem_cons.mp hev with heq | hmem
        · subst heq
          refine ⟨done ++ rest, rfl, ?_, ?_, ?_⟩
          · rw [keys_append]
            exact fun hc => (List.mem_append.mp hc).elim hnotin.1 hnotin.2
          · exact (List.append_sublist_append_left done).mpr (List.sublist_cons_self e rest)
          · rw [hfe]
            exact (List.append_sublist_append_left done).mpr (List.filter_sublist rest)
        · rcases ih3 ev hmem with ⟨r, h1, h2, h3, h4⟩
          refine ⟨r, h1, h2, ?_, ?_⟩
          · exact h3.trans ((List.append_sublist_append_left done).mpr
              (List.sublist_cons_self e rest))
          · rw [hfe]
            exact h4
    · have hstf : isStale now e = false := by
        simpa [Bool.not_eq_true] using hst
      have hfe : List.filter (fun e => !isStale now e) (e :: rest) =
          e :: List.filter (fun e => !isStale now e) rest := by
        simp [List.filter_cons, hstf]
      have hfs : List.filter (isStale now) (e :: rest) =
          List.filter (isStale now) rest := by
        simp [List.filter_cons, hstf]
      have hstep : sweepGo now (e :: rest) (done ++ e :: rest) =
          sweepGo now rest (done ++ e :: rest) := by
        cases e with
        | mk a b => simp [sweepGo, hstf]
      have hassoc : done ++ e :: rest = (done ++ [e]) ++ rest := by simp
      have hnd2 : (keys ((done ++ [e]) ++ rest)).Nodup := by rwa [hassoc] at hnd
      rcases ih (done ++ [e]) hnd2 with ⟨ih1, ih2, ih3⟩
      rw [hassoc] at hstep
      rw [hassoc]
      refine ⟨?_, ?_, ?_⟩
      · rw [hstep, ih1, hfe]
        simp
      · rw [hstep, ih2, hfs]
      · rw [hstep]
        intro ev hev
        rcases ih3 ev hev with ⟨r, h1, h2, h3, h4⟩
        refine ⟨r, h1, h2, h3, ?_⟩
        rw [hfe]
        simpa using h4

theorem broadcastSends_exclude_absent (reg : Registry) (m : OutMsg) (j : Nat)
    (h : j ∉ keys reg) : broadcastSends reg m (some j) = broadcastSends reg m none := by
  induction reg with
  | nil => rfl
  | cons e rest ih =>
    have he : e.1 ≠ j := fun hc => h (by simp [keys, hc])
    have hrest : j ∉ keys rest := fun hc => h (by simp [keys] at hc ⊢; right; exact hc)
    simp only [broadcastSends, List.filterMap_cons] at ih ⊢
    by_cases hr : e.2.ws.readyState = 1
    · rw [if_pos ⟨by simp [he], hr⟩, if_pos ⟨by simp, hr⟩, ih hrest]
    · rw [if_neg (by simp [hr]), if_neg (by simp [hr]), ih hrest]

theorem isType_ne {t : Option JVal} {a b : String} (h : isType t a = true)
    (hab : b ≠ a) : isType t b = false := by
  cases t with
  | none => simp [isType] at h
  | some v =>
    cases v with
    | jstr x =>
      simp only [isType, beq_iff_eq] at h
      subst h
      simp only [isType, beq_eq_false_iff_ne]
      exact fun hc => hab hc.symm
    | jnull => simp [isType] at h
    | jbool b => simp [isType] at h
    | jnum n => simp [isType] at h
    | jarr xs => simp [isType] at h
    | jobj fs => simp [isType] at h

theorem keys_mapSet_mem (reg : Registry) (i : Nat) (s : Session) (h : i ∈ keys reg) :
    keys (mapSet reg i s) = keys reg := by
  induction reg with
  | nil => simp [keys] at h
  | cons e rest ih =>
    cases e with
    | mk a b =>
      by_cases he : a = i
      · subst he
        simp [mapSet, keys]
      · have hrest : i ∈ keys rest := by
          simp only [keys, List.map_cons, List.mem_cons] at h
          rcases h with h | h
          · exact absurd h.symm he
          · exact h
        simp [mapSet, he, keys]
        simpa [keys] using ih hrest

/-- C8: for every message and every registry state, `broadcastAll(msg)`
performs exactly the same sends, to exactly the same sessions, as
`broadcast(msg, excludeId)` invoked with no exclusion. -/
theorem claim_broadcastAll_extensionally_broadcast (reg : Registry) (m : OutMsg) :
    broadcastAllSends reg m = broadcastSends reg m none :=
  broadcastAll_eq_no_exclude reg m

/-- C7: a broadcast fan-out leaves the registry unchanged; a recipient
whose channel is not open is skipped (it receives nothing, and the loop
still reaches everyone else); every other registered open session
receives the message; and only registered sessions ever receive a send. -/
theorem claim_broadcast_frame (reg : Registry) (m : OutMsg) (ex : Option Nat)
    (hnd : (keys reg).Nodup) :
    (broadcastStep reg m ex).1 = reg ∧
    (∀ i p, (i, p) ∈ reg → p.ws.readyState ≠ 1 →
      ∀ m', (i, m') ∉ (broadcastStep reg m ex).2) ∧
    (∀ i p, (i, p) ∈ reg → p.ws.readyState = 1 → some i ≠ ex →
      (i, m) ∈ (broadcastStep reg m ex).2) ∧
    (∀ s ∈ (broadcastStep reg m ex).2, s.1 ∈ keys reg) := by
  refine ⟨rfl, ?_, ?_, ?_⟩
  · intro i p hip hr m' hmem
    rcases mem_broadcastSends.mp hmem with ⟨_, _, q, hq, hqr⟩
    have h1 := mem_mapGet hnd hip
    have h2 := mem_mapGet hnd hq
    rw [h1] at h2
    cases h2
    exact hr hqr
  · intro i p hip hr hx
    exact mem_broadcastSends.mpr ⟨rfl, hx, p, hip, hr⟩
  · intro s hs
    cases s with
    | mk i m' =>
      rcases mem_broadcastSends.mp hs with ⟨_, _, q, hq, _⟩
      exact mapGet_isSome_of_mem hq

/-- C7 witness: the frame theorem evaluated on a registry with one open
and one closed channel. -/
theorem claim_broadcast_frame_witness :
    (keys [((0 : Nat), Session.mk (Channel.mk 1) 0 none),
      (1, Session.mk (Channel.mk 3) 0 none)]).Nodup ∧
    ((broadcastStep [((0 : Nat), Session.mk (Channel.mk 1) 0 none),
        (1, Session.mk (Channel.mk 3) 0 none)] (OutMsg.join 7) none).1 =
      [((0 : Nat), Session.mk (Channel.mk 1) 0 none),
        (1, Session.mk (Channel.mk 3) 0 none)] ∧
    (∀ i p, (i, p) ∈ [((0 : Nat), Session.mk (Channel.mk 1) 0 none),
        (1, Session.mk (Channel.mk 3) 0 none)] → p.ws.readyState ≠ 1 →
      ∀ m', (i, m') ∉ (broadcastStep [((0 : Nat), Session.mk (Channel.mk 1) 0 none),
        (1, Session.mk (Channel.mk 3) 0 none)] (OutMsg.join 7) none).2) ∧
    (∀ i p, (i, p) ∈ [((0 : Nat), Session.mk (Channel.mk 1) 0 none),
        (1, Session.mk (Channel.mk 3) 0 none)] → p.ws.readyState = 1 → some i ≠ none →
      (i, OutMsg.join 7) ∈ (broadcastStep [((0 : Nat), Session.mk (Channel.mk 1) 0 none),
        (1, Session.mk (Channel.mk 3) 0 none)] (OutMsg.join 7) none).2) ∧
    (∀ s ∈ (broadcastStep [((0 : Nat), Session.mk (Channel.mk 1) 0 none),
        (1, Session.mk (Channel.mk 3) 0 none)] (OutMsg.join 7) none).2,
      s.1 ∈ keys [((0 : Nat), Session.mk (Channel.mk 1) 0 none),
        (1, Session.mk (Channel.mk 3) 0 none)])) :=
  ⟨by simp [keys], claim_broadcast_frame _ (OutMsg.join 7) none (by simp [keys])⟩

/-- C1: at or above `MAX_PLAYERS` live sessions an incoming connection is
told `full` and closed, with the registry and the identifier supply both
untouched and nothing registered or broadcast; below the maximum a fresh
identifier is consumed and the session is inserted, welcomed and
announced. -/
theorem claim_connection_gate (reg : Registry) (nextId : Nat) (ch : Channel) (now : Nat) :
    (reg.length ≥ MAX_PLAYERS →
      handleConnection reg nextId ch now =
        (reg, nextId, [Act.sendSelf OutMsg.full, Act.closeSelf])) ∧
    (reg.length < MAX_PLAYERS →
      handleConnection reg nextId ch now =
        (mapSet reg nextId (Session.mk ch now none), nextId + 1,
          [Act.sendSelf (OutMsg.welcome nextId
              (getPlayerStates (mapSet reg nextId (Session.mk ch now none)))),
            Act.bcast (OutMsg.join nextId) (some nextId)])) := by
  constructor
  · intro h
    simp [handleConnection, h]
  · intro h
    have hn : ¬ reg.length ≥ MAX_PLAYERS := Nat.not_le.mpr h
    simp [handleConnection, hn]

/-- C1 witness: the gate evaluated at a full (8 sessions) and at an empty
registry. -/
theorem claim_connection_gate_witness :
    ((List.replicate 8 ((0 : Nat), Session.mk (Channel.mk 1) 0 none)).length ≥ MAX_PLAYERS ∧
      handleConnection (List.replicate 8 ((0 : Nat), Session.mk (Channel.mk 1) 0 none))
          42 (Channel.mk 1) 7 =
        (List.replicate 8 ((0 : Nat), Session.mk (Channel.mk 1) 0 none), 42,
          [Act.sendSelf OutMsg.full, Act.closeSelf])) ∧
    (([] : Registry).length < MAX_PLAYERS ∧
      handleConnection ([] : Registry) 5 (Channel.mk 1) 7 =
        ([(5, Session.mk (Channel.mk 1) 7 none)], 6,
          [Act.sendSelf (OutMsg.welcome 5 []), Act.bcast (OutMsg.join 5) (some 5)])) :=
  ⟨⟨by simp [MAX_PLAYERS],
    (claim_connection_gate _ 42 (Channel.mk 1) 7).1 (by simp [MAX_PLAYERS])⟩,
   ⟨by simp [MAX_PLAYERS],
    (claim_connection_gate [] 5 (Channel.mk 1) 7).2 (by simp [MAX_PLAYERS])⟩⟩

/-- C10: a `state` message attributed to an id no longer in the registry
skips the per-session mutation of `lastSeen` and `state` (the registry is
returned unchanged) but still broadcasts the snapshot under the retired
id to the other live sessions; since the retired id is absent, the
exclusion removes nobody and the fan-out equals a broadcast to all. -/
theorem claim_state_after_eviction (reg : Registry) (selfId now : Nat) (msg : InMsg)
    (hty : isType msg.type "state" = true) (h : mapGet reg selfId = none) :
    handleMessage reg selfId now msg =
      (reg, [Act.bcast (OutMsg.state selfId msg.data) (some selfId)]) ∧
    broadcastSends reg (OutMsg.state selfId msg.data) (some selfId) =
      broadcastAllSends reg (OutMsg.state selfId msg.data) := by
  constructor
  · simp [handleMessage, hty, h]
  · rw [broadcastAll_eq_no_exclude]
    exact broadcastSends_exclude_absent reg _ selfId ((mapGet_eq_none_iff reg selfId).mp h)

/-- C10 witness: a state message under the retired id 0 against a
registry that only contains session 1. -/
theorem claim_state_after_eviction_witness :
    isType (InMsg.mk (some (JVal.jstr "state")) (some (JVal.jobj [])) none none none none).type
        "state" = true ∧
    mapGet [((1 : Nat), Session.mk (Channel.mk 1) 4 none)] 0 = none ∧
    (handleMessage [((1 : Nat), Session.mk (Channel.mk 1) 4 none)] 0 9
        (InMsg.mk (some (JVal.jstr "state")) (some (JVal.jobj [])) none none none none) =
      ([((1 : Nat), Session.mk (Channel.mk 1) 4 none)],
        [Act.bcast (OutMsg.state 0 (some (JVal.jobj []))) (some 0)]) ∧
    broadcastSends [((1 : Nat), Session.mk (Channel.mk 1) 4 none)]
        (OutMsg.state 0 (some (JVal.jobj []))) (some 0) =
      broadcastAllSends [((1 : Nat), Session.mk (Channel.mk 1) 4 none)]
        (OutMsg.state 0 (some (JVal.jobj [])))) :=
  ⟨rfl, rfl, claim_state_after_eviction _ 0 9 _ rfl rfl⟩

/-- C9: a well-formed `ai` request dispatches the backend call with the
prompt cut to its first 500 characters, and that truncated prompt — not
the original — is the one echoed in every resulting `code` broadcast send
and in any `code_error` reply. -/
theorem claim_prompt_truncation (reg : Registry) (selfId now : Nat) (msg : InMsg)
    (hty : isType msg.type "ai" = true)
    (hp : truthyS msg.prompt = true) (hk : truthyS msg.apiKey = true) :
    handleMessage reg selfId now msg =
      (reg, [Act.callAI selfId ((orEmpty msg.prompt).take 500) (orEmpty msg.apiKey)]) ∧
    (∀ reg2 text s,
      s ∈ handleAIComplete reg2 selfId ((orEmpty msg.prompt).take 500) (Except.ok text) →
      s.2 = OutMsg.code (stripCodeFences text.trim) ((orEmpty msg.prompt).take 500) selfId) ∧
    (∀ reg2 err s,
      s ∈ handleAIComplete reg2 selfId ((orEmpty msg.prompt).take 500) (Except.error err) →
      s.2 = OutMsg.codeError err ((orEmpty msg.prompt).take 500)) := by
  have hsts : isType msg.type "state" = false := isType_ne hty (by decide)
  refine ⟨?_, ?_, ?_⟩
  · simp [handleMessage, hsts, hty, hp, hk]
  · intro reg2 text s hs
    simp only [handleAIComplete] at hs
    rw [broadcastAll_eq_no_exclude] at hs
    cases s with
    | mk i m' => exact (mem_broadcastSends.mp hs).1
  · intro reg2 err s hs
    cases hget : mapGet reg2 selfId with
    | none =>
      have heq : handleAIComplete reg2 selfId ((orEmpty msg.prompt).take 500)
          (Except.error err) = [] := by
        simp [handleAIComplete, hget]
      rw [heq] at hs
      simp at hs
    | some p =>
      have heq : handleAIComplete reg2 selfId ((orEmpty msg.prompt).take 500)
          (Except.error err) =
          if p.ws.readyState = 1 then
            [(selfId, OutMsg.codeError err ((orEmpty msg.prompt).take 500))]
          else [] := by
        simp [handleAIComplete, hget]
      rw [heq] at hs
      by_cases hr : p.ws.readyState = 1
      · rw [if_pos hr] at hs
        rw [List.mem_singleton.mp hs]
      · rw [if_neg hr] at hs
        simp at hs

set_option maxRecDepth 8000 in
/-- C9 witness: a 600-character prompt is cut to 500 characters on
dispatch, and the truncated prompt is echoed in the success broadcast and
in the error reply. -/
theorem claim_prompt_truncation_witness :
    isType (InMsg.mk (some (JVal.jstr "ai")) none
        (some (String.mk (List.replicate 600 'x'))) (some "key") none none).type "ai" = true ∧
    truthyS (InMsg.mk (some (JVal.jstr "ai")) none
        (some (String.mk (List.replicate 600 'x'))) (some "key") none none).prompt = true ∧
    truthyS (InMsg.mk (some (JVal.jstr "ai")) none
        (some (String.mk (List.replicate 600 'x'))) (some "key") none none).apiKey = true ∧
    (handleMessage [] 3 0 (InMsg.mk (some (JVal.jstr "ai")) none
        (some (String.mk (List.replicate 600 'x'))) (some "key") none none) =
      ([], [Act.callAI 3 ((orEmpty (some (String.mk (List.replicate 600 'x')))).take 500)
        (orEmpty (some "key"))]) ∧
    (∀ reg2 text s, s ∈ handleAIComplete reg2 3
        ((orEmpty (some (String.mk (List.replicate 600 'x')))).take 500) (Except.ok text) →
      s.2 = OutMsg.code (stripCodeFences text.trim)
        ((orEmpty (some (String.mk (List.replicate 600 'x')))).take 500) 3) ∧
    (∀ reg2 err s, s ∈ handleAIComplete reg2 3
        ((orEmpty (some (String.mk (List.replicate 600 'x')))).take 500) (Except.error err) →
      s.2 = OutMsg.codeError err
        ((orEmpty (some (String.mk (List.replicate 600 'x')))).take 500))) :=
  ⟨rfl, rfl, rfl,
    claim_prompt_truncation [] 3 0
      (InMsg.mk (some (JVal.jstr "ai")) none
        (some (String.mk (List.replicate 600 'x'))) (some "key") none none)
      rfl rfl rfl⟩

/-- C4: a `state` message from a registered session updates that session
in place (same channel, `lastSeen` set to now, `state` overwritten with
the payload), leaves every other session untouched, and broadcasts the
snapshot under the sender id to exactly the other registered open
sessions, the sender itself excluded. -/
theorem claim_state_relay (reg : Registry) (selfId now : Nat) (msg : InMsg) (p : Session)
    (hnd : (keys reg).Nodup) (hty : isType msg.type "state" = true)
    (h : mapGet reg selfId = some p) :
    (handleMessage reg selfId now msg).1 =
      mapSet reg selfId (Session.mk p.ws now msg.data) ∧
    mapGet (handleMessage reg selfId now msg).1 selfId =
      some (Session.mk p.ws now msg.data) ∧
    (∀ j, j ≠ selfId → mapGet (handleMessage reg selfId now msg).1 j = mapGet reg j) ∧
    (handleMessage reg selfId now msg).2 =
      [Act.bcast (OutMsg.state selfId msg.data) (some selfId)] ∧
    (∀ s ∈ broadcastSends (handleMessage reg selfId now msg).1
        (OutMsg.state selfId msg.data) (some selfId),
      s.1 ≠ selfId ∧ s.2 = OutMsg.state selfId msg.data) ∧
    (∀ j q, j ≠ selfId → mapGet reg j = some q → q.ws.readyState = 1 →
      ((broadcastSends (handleMessage reg selfId now msg).1
          (OutMsg.state selfId msg.data) (some selfId)).filter
        (fun s => decide (s.1 = j))).length = 1) := by
  have hreg : (handleMessage reg selfId now msg).1 =
      mapSet reg selfId (Session.mk p.ws now msg.data) := by
    simp [handleMessage, hty, h]
  have hmemk : selfId ∈ keys reg := mapGet_isSome_of_mem (mapGet_mem h)
  have hkeys : keys (mapSet reg selfId (Session.mk p.ws now msg.data)) = keys reg :=
    keys_mapSet_mem reg selfId _ hmemk
  have hnd' : (keys (mapSet reg selfId (Session.mk p.ws now msg.data))).Nodup := by
    rw [hkeys]; exact hnd
  refine ⟨hreg, ?_, ?_, ?_, ?_, ?_⟩
  · rw [hreg]
    exact mapGet_mapSet_self reg selfId _
  · intro j hj
    rw [hreg]
    exact mapGet_mapSet_ne reg selfId j _ hj
  · simp [handleMessage, hty, h]
  · intro s hs
    rw [hreg] at hs
    cases s with
    | mk i m' =>
      rcases mem_broadcastSends.mp hs with ⟨hm, hx, _, _, _⟩
      exact ⟨by simpa using hx, hm⟩
  · intro j q hj hq hqr
    rw [hreg]
    have hget : mapGet (mapSet reg selfId (Session.mk p.ws now msg.data)) j = some q := by
      rw [mapGet_mapSet_ne reg selfId j _ hj]
      exact hq
    exact broadcastSends_count_one hnd' hget hqr (by simp [hj])

/-- C4 witness: session 0 sends a snapshot in a two-session registry; its
record is refreshed, session 1 is untouched and receives exactly one
state broadcast, and session 0 receives none. -/
theorem claim_state_relay_witness :
    (keys [((0 : Nat), Session.mk (Channel.mk 1) 2 none),
      (1, Session.mk (Channel.mk 1) 3 none)]).Nodup ∧
    isType (InMsg.mk (some (JVal.jstr "state")) (some (JVal.jnum 7)) none none none none).type
        "state" = true ∧
    mapGet [((0 : Nat), Session.mk (Channel.mk 1) 2 none),
        (1, Session.mk (Channel.mk 1) 3 none)] 0 =
      some (Session.mk (Channel.mk 1) 2 none) ∧
    ((handleMessage [((0 : Nat), Session.mk (Channel.mk 1) 2 none),
        (1, Session.mk (Channel.mk 1) 3 none)] 0 50
        (InMsg.mk (some (JVal.jstr "state")) (some (JVal.jnum 7)) none none none none)).1 =
      mapSet [((0 : Nat), Session.mk (Channel.mk 1) 2 none),
        (1, Session.mk (Channel.mk 1) 3 none)] 0
        (Session.mk (Channel.mk 1) 50 (some (JVal.jnum 7))) ∧
    mapGet (handleMessage [((0 : Nat), Session.mk (Channel.mk 1) 2 none),
        (1, Session.mk (Channel.mk 1) 3 none)] 0 50
        (InMsg.mk (some (JVal.jstr "state")) (some (JVal.jnum 7)) none none none none)).1 0 =
      some (Session.mk (Channel.mk 1) 50 (some (JVal.jnum 7))) ∧
    (∀ j, j ≠ 0 → mapGet (handleMessage [((0 : Nat), Session.mk (Channel.mk 1) 2 none),
        (1, Session.mk (Channel.mk 1) 3 none)] 0 50
        (InMsg.mk (some (JVal.jstr "state")) (some (JVal.jnum 7)) none none none none)).1 j =
      mapGet [((0 : Nat), Session.mk (Channel.mk 1) 2 none),
        (1, Session.mk (Channel.mk 1) 3 none)] j) ∧
    (handleMessage [((0 : Nat), Session.mk (Channel.mk 1) 2 none),
        (1, Session.mk (Channel.mk 1) 3 none)] 0 50
        (InMsg.mk (some (JVal.jstr "state")) (some (JVal.jnum 7)) none none none none)).2 =
      [Act.bcast (OutMsg.state 0 (some (JVal.jnum 7))) (some 0)] ∧
    (∀ s ∈ broadcastSends (handleMessage [((0 : Nat), Session.mk (Channel.mk 1) 2 none),
        (1, Session.mk (Channel.mk 1) 3 none)] 0 50
        (InMsg.mk (some (JVal.jstr "state")) (some (JVal.jnum 7)) none none none none)).1
        (OutMsg.state 0 (some (JVal.jnum 7))) (some 0),
      s.1 ≠ 0 ∧ s.2 = OutMsg.state 0 (some (JVal.jnum 7))) ∧
    (∀ j q, j ≠ 0 → mapGet [((0 : Nat), Session.mk (Channel.mk 1) 2 none),
        (1, Session.mk (Channel.mk 1) 3 none)] j = some q → q.ws.readyState = 1 →
      ((broadcastSends (handleMessage [((0 : Nat), Session.mk (Channel.mk 1) 2 none),
          (1, Session.mk (Channel.mk 1) 3 none)] 0 50
          (InMsg.mk (some (JVal.jstr "state")) (some (JVal.jnum 7)) none none none none)).1
          (OutMsg.state 0 (some (JVal.jnum 7))) (some 0)).filter
        (fun s => decide (s.1 = j))).length = 1)) :=
  ⟨by simp [keys], rfl, rfl,
    claim_state_relay
      [((0 : Nat), Session.mk (Channel.mk 1) 2 none), (1, Session.mk (Channel.mk 1) 3 none)]
      0 50
      (InMsg.mk (some (JVal.jstr "state")) (some (JVal.jnum 7)) none none none none)
      (Session.mk (Channel.mk 1) 2 none)
      (by simp [keys]) rfl rfl⟩

/-- C2 counterexample: a `narrative` request carrying its context but
missing the credential is dropped with no error reply at all (and no
backend call), although the claim promises an immediate error reply for
every missing required field on either sub-protocol. -/
theorem claim_request_validation_counterexample :
    handleMessage [((0 : Nat), Session.mk (Channel.mk 1) 0 none)] 0 5
        (InMsg.mk (some (JVal.jstr "narrative")) none none none
          (some (JVal.jstr "s1")) (some "Village")) =
      ([((0 : Nat), Session.mk (Channel.mk 1) 0 none)], []) := rfl

/-- C2 (amended): on the `ai` sub-protocol a missing prompt or credential
is answered locally with a `code_error` reply and no backend call; on the
`narrative` sub-protocol only the credential is checked — when it is
missing the request is silently dropped (no backend call, but no error
reply either), and when it is present the backend call proceeds with no
validation of the context fields. -/
theorem claim_request_validation (reg : Registry) (selfId now : Nat) (msg : InMsg) :
    (isType msg.type "ai" = true →
      (truthyS msg.prompt = true ∧ truthyS msg.apiKey = true → False) →
      handleMessage reg selfId now msg =
        (reg, [Act.sendSelf (OutMsg.codeError "Missing API key or prompt"
          (orEmpty msg.prompt))])) ∧
    (isType msg.type "narrative" = true → truthyS msg.apiKey = false →
      handleMessage reg selfId now msg = (reg, [])) ∧
    (isType msg.type "narrative" = true → truthyS msg.apiKey = true →
      handleMessage reg selfId now msg = (reg, [Act.callNarrative selfId msg])) := by
  refine ⟨?_, ?_, ?_⟩
  · intro hty hmiss
    have hsts : isType msg.type "state" = false := isType_ne hty (by decide)
    have hcomb : (truthyS msg.prompt && truthyS msg.apiKey) = false := by
      cases hp : truthyS msg.prompt <;> cases hk : truthyS msg.apiKey <;> simp_all
    simp [handleMessage, hsts, hty, hcomb]
  · intro hty hk
    have hsts : isType msg.type "state" = false := isType_ne hty (by decide)
    have hai : isType msg.type "ai" = false := isType_ne hty (by decide)
    simp [handleMessage, hsts, hai, hty, hk]
  · intro hty hk
    have hsts : isType msg.type "state" = false := isType_ne hty (by decide)
    have hai : isType msg.type "ai" = false := isType_ne hty (by decide)
    simp [handleMessage, hsts, hai, hty, hk]

/-- C2 witness: an `ai` request with a prompt but no key gets the local
error reply; a keyless `narrative` request produces no action at all; a
`narrative` request with a key and no context still dispatches the call. -/
theorem claim_request_validation_witness :
    (handleMessage [] 0 0 (InMsg.mk (some (JVal.jstr "ai")) none (some "fly") none none none) =
      ([], [Act.sendSelf (OutMsg.codeError "Missing API key or prompt" "fly")])) ∧
    (handleMessage [] 1 0 (InMsg.mk (some (JVal.jstr "narrative")) none none none none none) =
      ([], [])) ∧
    (handleMessage [] 2 0
        (InMsg.mk (some (JVal.jstr "narrative")) none none (some "k") none none) =
      ([], [Act.callNarrative 2
        (InMsg.mk (some (JVal.jstr "narrative")) none none (some "k") none none)])) :=
  ⟨(claim_request_validation [] 0 0
      (InMsg.mk (some (JVal.jstr "ai")) none (some "fly") none none none)).1 rfl
      (fun hc => absurd hc.2 (by decide)),
   (claim_request_validation [] 1 0
      (InMsg.mk (some (JVal.jstr "narrative")) none none none none none)).2.1 rfl rfl,
   (claim_request_validation [] 2 0
      (InMsg.mk (some (JVal.jstr "narrative")) none none (some "k") none none)).2.2 rfl rfl⟩

/-- C5 counterexample: session 0 has a recorded state (the JS value
`false`), yet the `welcome` roster handed to the newly admitted session 1
is empty, because `getPlayerStates` keeps an entry only when its recorded
state is truthy. -/
theorem claim_welcome_roster_counterexample :
    handleConnection [((0 : Nat), Session.mk (Channel.mk 1) 0 (some (JVal.jbool false)))]
        1 (Channel.mk 1) 9 =
      ([((0 : Nat), Session.mk (Channel.mk 1) 0 (some (JVal.jbool false))),
        (1, Session.mk (Channel.mk 1) 9 none)], 2,
        [Act.sendSelf (OutMsg.welcome 1 []), Act.bcast (OutMsg.join 1) (some 1)]) ∧
    (Session.mk (Channel.mk 1) 0 (some (JVal.jbool false))).state ≠ none :=
  ⟨rfl, by simp⟩

/-- C5 (amended): a freshly admitted session is welcomed with the roster
of the other sessions whose recorded state is truthy in the JS sense; a
session with no state yet, or whose recorded state is a falsy value
(null, false, 0, the empty string), is left out, and the new session
itself is excluded since its state is unset at admission. -/
theorem claim_welcome_roster (reg : Registry) (nextId : Nat) (ch : Channel) (now : Nat)
    (hnd : (keys reg).Nodup) (hlt : reg.length < MAX_PLAYERS) (hfresh : nextId ∉ keys reg) :
    (handleConnection reg nextId ch now).2.2 =
      [Act.sendSelf (OutMsg.welcome nextId (getPlayerStates reg)),
        Act.bcast (OutMsg.join nextId) (some nextId)] ∧
    (∀ i v, (i, v) ∈ getPlayerStates reg ↔
      i ≠ nextId ∧ ∃ p, mapGet reg i = some p ∧ p.state = some v ∧ truthy v = true) := by
  have hroster : getPlayerStates (mapSet reg nextId (Session.mk ch now none)) =
      getPlayerStates reg := by
    rw [mapSet_fresh reg nextId _ hfresh, getPlayerStates_append]
    simp [getPlayerStates]
  constructor
  · have hn : ¬ reg.length ≥ MAX_PLAYERS := Nat.not_le.mpr hlt
    simp [handleConnection, hn, hroster]
  · intro i v
    constructor
    · intro hmem
      rcases mem_getPlayerStates.mp hmem with ⟨p, hp, hs, ht⟩
      refine ⟨?_, p, mem_mapGet hnd hp, hs, ht⟩
      intro hc
      exact hfresh (hc ▸ mapGet_isSome_of_mem hp)
    · rintro ⟨hne, p, hp, hs, ht⟩
      exact mem_getPlayerStates.mpr ⟨p, mapGet_mem hp, hs, ht⟩

/-- C5 witness: admission into a registry holding one session with a
truthy recorded state and one with no state; the roster lists only the
former. -/
theorem claim_welcome_roster_witness :
    (keys [((0 : Nat), Session.mk (Channel.mk 1) 0 (some (JVal.jnum 4))),
      (1, Session.mk (Channel.mk 1) 0 none)]).Nodup ∧
    ([((0 : Nat), Session.mk (Channel.mk 1) 0 (some (JVal.jnum 4))),
      (1, Session.mk (Channel.mk 1) 0 none)] : Registry).length < MAX_PLAYERS ∧
    (2 : Nat) ∉ keys [((0 : Nat), Session.mk (Channel.mk 1) 0 (some (JVal.jnum 4))),
      (1, Session.mk (Channel.mk 1) 0 none)] ∧
    ((handleConnection [((0 : Nat), Session.mk (Channel.mk 1) 0 (some (JVal.jnum 4))),
        (1, Session.mk (Channel.mk 1) 0 none)] 2 (Channel.mk 1) 11).2.2 =
      [Act.sendSelf (OutMsg.welcome 2
          (getPlayerStates [((0 : Nat), Session.mk (Channel.mk 1) 0 (some (JVal.jnum 4))),
            (1, Session.mk (Channel.mk 1) 0 none)])),
        Act.bcast (OutMsg.join 2) (some 2)] ∧
    (∀ i v, (i, v) ∈ getPlayerStates
        [((0 : Nat), Session.mk (Channel.mk 1) 0 (some (JVal.jnum 4))),
          (1, Session.mk (Channel.mk 1) 0 none)] ↔
      i ≠ 2 ∧ ∃ p, mapGet [((0 : Nat), Session.mk (Channel.mk 1) 0 (some (JVal.jnum 4))),
          (1, Session.mk (Channel.mk 1) 0 none)] i = some p ∧
        p.state = some v ∧ truthy v = true)) :=
  ⟨by simp [keys], by simp [MAX_PLAYERS], by simp [keys],
    claim_welcome_roster
      [((0 : Nat), Session.mk (Channel.mk 1) 0 (some (JVal.jnum 4))),
        (1, Session.mk (Channel.mk 1) 0 none)] 2 (Channel.mk 1) 11
      (by simp [keys]) (by simp [MAX_PLAYERS]) (by simp [keys])⟩

/-- C3 counterexample: a failed code request whose author has meanwhile
left the registry produces zero error replies, although the claim states
that exactly one error reply is sent to the requester on any failure. -/
theorem claim_backend_result_routing_counterexample :
    handleAIComplete [] 0 "make zombies" (Except.error "network down") = [] := rfl

/-- C3 (amended): a successful code or narrative request is broadcast
through `broadcastAll` — every registered open session, the requester
included, receives the single result message exactly once; any failure
(transport or backend error, and on the narrative sub-protocol an
unparseable structured output) is never broadcast and is answered with
exactly one error reply to the requesting session, provided the requester
is still registered with an open channel (otherwise no reply is sent at
all). -/
theorem claim_backend_result_routing (reg : Registry) (authorId : Nat) (prompt : String)
    (sid : Option JVal) (parseJson : String → Except String JVal)
    (hnd : (keys reg).Nodup) :
    (∀ text,
      handleAIComplete reg authorId prompt (Except.ok text) =
        broadcastAllSends reg (OutMsg.code (stripCodeFences text.trim) prompt authorId) ∧
      (∀ s ∈ handleAIComplete reg authorId prompt (Except.ok text),
        s.2 = OutMsg.code (stripCodeFences text.trim) prompt authorId) ∧
      (∀ i p, mapGet reg i = some p → p.ws.readyState = 1 →
        ((handleAIComplete reg authorId prompt (Except.ok text)).filter
          (fun s => decide (s.1 = i))).length = 1)) ∧
    (∀ err,
      (∀ s ∈ handleAIComplete reg authorId prompt (Except.error err),
        s.1 = authorId ∧ s.2 = OutMsg.codeError err prompt) ∧
      (∀ p, mapGet reg authorId = some p → p.ws.readyState = 1 →
        handleAIComplete reg authorId prompt (Except.error err) =
          [(authorId, OutMsg.codeError err prompt)]) ∧
      (mapGet reg authorId = none →
        handleAIComplete reg authorId prompt (Except.error err) = []) ∧
      (∀ p, mapGet reg authorId = some p → p.ws.readyState ≠ 1 →
        handleAIComplete reg authorId prompt (Except.error err) = [])) ∧
    (∀ text result, parseJson (stripJsonFences text.trim) = Except.ok result →
      handleNarrativeComplete parseJson reg authorId sid (Except.ok text) =
        broadcastAllSends reg (OutMsg.narrativeResult sid result) ∧
      (∀ i p, mapGet reg i = some p → p.ws.readyState = 1 →
        ((handleNarrativeComplete parseJson reg authorId sid (Except.ok text)).filter
          (fun s => decide (s.1 = i))).length = 1)) ∧
    (∀ err,
      (∀ s ∈ handleNarrativeComplete parseJson reg authorId sid (Except.error err),
        s.1 = authorId ∧ s.2 = OutMsg.narrativeError sid err) ∧
      (∀ p, mapGet reg authorId = some p → p.ws.readyState = 1 →
        handleNarrativeComplete parseJson reg authorId sid (Except.error err) =
          [(authorId, OutMsg.narrativeError sid err)]) ∧
      (mapGet reg authorId = none →
        handleNarrativeComplete parseJson reg authorId sid (Except.error err) = []) ∧
      (∀ p, mapGet reg authorId = some p → p.ws.readyState ≠ 1 →
        handleNarrativeComplete parseJson reg authorId sid (Except.error err) = [])) ∧
    (∀ text perr, parseJson (stripJsonFences text.trim) = Except.error perr →
      (∀ s ∈ handleNarrativeComplete parseJson reg authorId sid (Except.ok text),
        s.1 = authorId ∧ s.2 = OutMsg.narrativeError sid perr) ∧
      (∀ p, mapGet reg authorId = some p → p.ws.readyState = 1 →
        handleNarrativeComplete parseJson reg authorId sid (Except.ok text) =
          [(authorId, OutMsg.narrativeError sid perr)]) ∧
      (mapGet reg authorId = none →
        handleNarrativeComplete parseJson reg authorId sid (Except.ok text) = []) ∧
      (∀ p, mapGet reg authorId = some p → p.ws.readyState ≠ 1 →
        handleNarrativeComplete parseJson reg authorId sid (Except.ok text) = [])) := by
  have hcount : ∀ (m : OutMsg) (i : Nat) (p : Session), mapGet reg i = some p →
      p.ws.readyState = 1 →
      ((broadcastAllSends reg m).filter (fun s => decide (s.1 = i))).length = 1 := by
    intro m i p hget hr
    rw [broadcastAll_eq_no_exclude]
    exact broadcastSends_count_one hnd hget hr (by simp)
  refine ⟨?_, ?_, ?_, ?_, ?_⟩
  · intro text
    refine ⟨rfl, ?_, ?_⟩
    · intro s hs
      rw [show handleAIComplete reg authorId prompt (Except.ok text) =
          broadcastAllSends reg (OutMsg.code (stripCodeFences text.trim) prompt authorId)
          from rfl, broadcastAll_eq_no_exclude] at hs
      cases s with
      | mk i m' => exact (mem_broadcastSends.mp hs).1
    · intro i p hget hr
      exact hcount _ i p hget hr
  · intro err
    refine ⟨?_, ?_, ?_, ?_⟩
    · intro s hs
      cases hget : mapGet reg authorId with
      | none =>
        have heq : handleAIComplete reg authorId prompt (Except.error err) = [] := by
          simp [handleAIComplete, hget]
        rw [heq] at hs
        simp at hs
      | some p =>
        have heq : handleAIComplete reg authorId prompt (Except.error err) =
            if p.ws.readyState = 1 then [(authorId, OutMsg.codeError err prompt)]
            else [] := by
          simp [handleAIComplete, hget]
        rw [heq] at hs
        by_cases hr : p.ws.readyState = 1
        · rw [if_pos hr] at hs
          rw [List.mem_singleton.mp hs]
          exact ⟨rfl, rfl⟩
        · rw [if_neg hr] at hs
          simp at hs
    · intro p hget hr
      simp [handleAIComplete, hget, hr]
    · intro hget
      simp [handleAIComplete, hget]
    · intro p hget hr
      simp [handleAIComplete, hget, hr]
  · intro text result hparse
    have heq : handleNarrativeComplete parseJson reg authorId sid (Except.ok text) =
        broadcastAllSends reg (OutMsg.narrativeResult sid result) := by
      simp [handleNarrativeComplete, hparse]
    refine ⟨heq, ?_⟩
    intro i p hget hr
    rw [heq]
    exact hcount _ i p hget hr
  · intro err
    refine ⟨?_, ?_, ?_, ?_⟩
    · intro s hs
      cases hget : mapGet reg authorId with
      | none =>
        have heq : handleNarrativeComplete parseJson reg authorId sid
            (Except.error err) = [] := by
          simp [handleNarrativeComplete, hget]
        rw [heq] at hs
        simp at hs
      | some p =>
        have heq : handleNarrativeComplete parseJson reg authorId sid (Except.error err) =
            if p.ws.readyState = 1 then [(authorId, OutMsg.narrativeError sid err)]
            else [] := by
          simp [handleNarrativeComplete, hget]
        rw [heq] at hs
        by_cases hr : p.ws.readyState = 1
        · rw [if_pos hr] at hs
          rw [List.mem_singleton.mp hs]
          exact ⟨rfl, rfl⟩
        · rw [if_neg hr] at hs
          simp at hs
    · intro p hget hr
      simp [handleNarrativeComplete, hget, hr]
    · intro hget
      simp [handleNarrativeComplete, hget]
    · intro p hget hr
      simp [handleNarrativeComplete, hget, hr]
  · intro text perr hparse
    refine ⟨?_, ?_, ?_, ?_⟩
    · intro s hs
      cases hget : mapGet reg authorId with
      | none =>
        have heq : handleNarrativeComplete parseJson reg authorId sid
            (Except.ok text) = [] := by
          simp [handleNarrativeComplete, hparse, hget]
        rw [heq] at hs
        simp at hs
      | some p =>
        have heq : handleNarrativeComplete parseJson reg authorId sid (Except.ok text) =
            if p.ws.readyState = 1 then [(authorId, OutMsg.narrativeError sid perr)]
            else [] := by
          simp [handleNarrativeComplete, hparse, hget]
        rw [heq] at hs
        by_cases hr : p.ws.readyState = 1
        · rw [if_pos hr] at hs
          rw [List.mem_singleton.mp hs]
          exact ⟨rfl, rfl⟩
        · rw [if_neg hr] at hs
          simp at hs
    · intro p hget hr
      simp [handleNarrativeComplete, hparse, hget, hr]
    · intro hget
      simp [handleNarrativeComplete, hparse, hget]
    · intro p hget hr
      simp [handleNarrativeComplete, hparse, hget, hr]

/-- C3 witness: result routing evaluated on a two-session registry (the
requester 0 and a peer 1, both open) with a JSON parser stub that always
succeeds. -/
theorem claim_backend_result_routing_witness :
    (keys [((0 : Nat), Session.mk (Channel.mk 1) 0 none),
      (1, Session.mk (Channel.mk 1) 0 none)]).Nodup ∧
    ((∀ text,
      handleAIComplete [((0 : Nat), Session.mk (Channel.mk 1) 0 none),
          (1, Session.mk (Channel.mk 1) 0 none)] 0 "p" (Except.ok text) =
        broadcastAllSends [((0 : Nat), Session.mk (Channel.mk 1) 0 none),
          (1, Session.mk (Channel.mk 1) 0 none)]
          (OutMsg.code (stripCodeFences text.trim) "p" 0) ∧
      (∀ s ∈ handleAIComplete [((0 : Nat), Session.mk (Channel.mk 1) 0 none),
          (1, Session.mk (Channel.mk 1) 0 none)] 0 "p" (Except.ok text),
        s.2 = OutMsg.code (stripCodeFences text.trim) "p" 0) ∧
      (∀ i p, mapGet [((0 : Nat), Session.mk (Channel.mk 1) 0 none),
          (1, Session.mk (Channel.mk 1) 0 none)] i = some p → p.ws.readyState = 1 →
        ((handleAIComplete [((0 : Nat), Session.mk (Channel.mk 1) 0 none),
            (1, Session.mk (Channel.mk 1) 0 none)] 0 "p" (Except.ok text)).filter
          (fun s => decide (s.1 = i))).length = 1)) ∧
    (∀ err,
      (∀ s ∈ handleAIComplete [((0 : Nat), Session.mk (Channel.mk 1) 0 none),
          (1, Session.mk (Channel.mk 1) 0 none)] 0 "p" (Except.error err),
        s.1 = 0 ∧ s.2 = OutMsg.codeError err "p") ∧
      (∀ p, mapGet [((0 : Nat), Session.mk (Channel.mk 1) 0 none),
          (1, Session.mk (Channel.mk 1) 0 none)] 0 = some p → p.ws.readyState = 1 →
        handleAIComplete [((0 : Nat), Session.mk (Channel.mk 1) 0 none),
          (1, Session.mk (Channel.mk 1) 0 none)] 0 "p" (Except.error err) =
          [(0, OutMsg.codeError err "p")]) ∧
      (mapGet [((0 : Nat), Session.mk (Channel.mk 1) 0 none),
          (1, Session.mk (Channel.mk 1) 0 none)] 0 = none →
        handleAIComplete [((0 : Nat), Session.mk (Channel.mk 1) 0 none),
          (1, Session.mk (Channel.mk 1) 0 none)] 0 "p" (Except.error err) = []) ∧
      (∀ p, mapGet [((0 : Nat), Session.mk (Channel.mk 1) 0 none),
          (1, Session.mk (Channel.mk 1) 0 none)] 0 = some p → p.ws.readyState ≠ 1 →
        handleAIComplete [((0 : Nat), Session.mk (Channel.mk 1) 0 none),
          (1, Session.mk (Channel.mk 1) 0 none)] 0 "p" (Except.error err) = [])) ∧
    (∀ text result,
        (fun _ => Except.ok JVal.jnull : String → Except String JVal)
          (stripJsonFences text.trim) = Except.ok result →
      handleNarrativeComplete (fun _ => Except.ok JVal.jnull)
          [((0 : Nat), Session.mk (Channel.mk 1) 0 none),
          (1, Session.mk (Channel.mk 1) 0 none)] 0 (some (JVal.jstr "s"))
          (Except.ok text) =
        broadcastAllSends [((0 : Nat), Session.mk (Channel.mk 1) 0 none),
          (1, Session.mk (Channel.mk 1) 0 none)]
          (OutMsg.narrativeResult (some (JVal.jstr "s")) result) ∧
      (∀ i p, mapGet [((0 : Nat), Session.mk (Channel.mk 1) 0 none),
          (1, Session.mk (Channel.mk 1) 0 none)] i = some p → p.ws.readyState = 1 →
        ((handleNarrativeComplete (fun _ => Except.ok JVal.jnull)
            [((0 : Nat), Session.mk (Channel.mk 1) 0 none),
            (1, Session.mk (Channel.mk 1) 0 none)] 0 (some (JVal.jstr "s"))
            (Except.ok text)).filter
          (fun s => decide (s.1 = i))).length = 1)) ∧
    (∀ err,
      (∀ s ∈ handleNarrativeComplete (fun _ => Except.ok JVal.jnull)
          [((0 : Nat), Session.mk (Channel.mk 1) 0 none),
          (1, Session.mk (Channel.mk 1) 0 none)] 0 (some (JVal.jstr "s"))
          (Except.error err),
        s.1 = 0 ∧ s.2 = OutMsg.narrativeError (some (JVal.jstr "s")) err) ∧
      (∀ p, mapGet [((0 : Nat), Session.mk (Channel.mk 1) 0 none),
          (1, Session.mk (Channel.mk 1) 0 none)] 0 = some p → p.ws.readyState = 1 →
        handleNarrativeComplete (fun _ => Except.ok JVal.jnull)
          [((0 : Nat), Session.mk (Channel.mk 1) 0 none),
          (1, Session.mk (Channel.mk 1) 0 none)] 0 (some (JVal.jstr "s"))
          (Except.error err) =
          [(0, OutMsg.narrativeError (some (JVal.jstr "s")) err)]) ∧
      (mapGet [((0 : Nat), Session.mk (Channel.mk 1) 0 none),
          (1, Session.mk (Channel.mk 1) 0 none)] 0 = none →
        handleNarrativeComplete (fun _ => Except.ok JVal.jnull)
          [((0 : Nat), Session.mk (Channel.mk 1) 0 none),
          (1, Session.mk (Channel.mk 1) 0 none)] 0 (some (JVal.jstr "s"))
          (Except.error err) = []) ∧
      (∀ p, mapGet [((0 : Nat), Session.mk (Channel.mk 1) 0 none),
          (1, Session.mk (Channel.mk 1) 0 none)] 0 = some p → p.ws.readyState ≠ 1 →
        handleNarrativeComplete (fun _ => Except.ok JVal.jnull)
          [((0 : Nat), Session.mk (Channel.mk 1) 0 none),
          (1, Session.mk (Channel.mk 1) 0 none)] 0 (some (JVal.jstr "s"))
          (Except.error err) = [])) ∧
    (∀ text perr,
        (fun _ => Except.ok JVal.jnull : String → Except String JVal)
          (stripJsonFences text.trim) = Except.error perr →
      (∀ s ∈ handleNarrativeComplete (fun _ => Except.ok JVal.jnull)
          [((0 : Nat), Session.mk (Channel.mk 1) 0 none),
          (1, Session.mk (Channel.mk 1) 0 none)] 0 (some (JVal.jstr "s"))
          (Except.ok text),
        s.1 = 0 ∧ s.2 = OutMsg.narrativeError (some (JVal.jstr "s")) perr) ∧
      (∀ p, mapGet [((0 : Nat), Session.mk (Channel.mk 1) 0 none),
          (1, Session.mk (Channel.mk 1) 0 none)] 0 = some p → p.ws.readyState = 1 →
        handleNarrativeComplete (fun _ => Except.ok JVal.jnull)
          [((0 : Nat), Session.mk (Channel.mk 1) 0 none),
          (1, Session.mk (Channel.mk 1) 0 none)] 0 (some (JVal.jstr "s"))
          (Except.ok text) =
          [(0, OutMsg.narrativeError (some (JVal.jstr "s")) perr)]) ∧
      (mapGet [((0 : Nat), Session.mk (Channel.mk 1) 0 none),
          (1, Session.mk (Channel.mk 1) 0 none)] 0 = none →
        handleNarrativeComplete (fun _ => Except.ok JVal.jnull)
          [((0 : Nat), Session.mk (Channel.mk 1) 0 none),
          (1, Session.mk (Channel.mk 1) 0 none)] 0 (some (JVal.jstr "s"))
          (Except.ok text) = []) ∧
      (∀ p, mapGet [((0 : Nat), Session.mk (Channel.mk 1) 0 none),
          (1, Session.mk (Channel.mk 1) 0 none)] 0 = some p → p.ws.readyState ≠ 1 →
        handleNarrativeComplete (fun _ => Except.ok JVal.jnull)
          [((0 : Nat), Session.mk (Channel.mk 1) 0 none),
          (1, Session.mk (Channel.mk 1) 0 none)] 0 (some (JVal.jstr "s"))
          (Except.ok text) = []))) :=
  ⟨by simp [keys],
    claim_backend_result_routing
      [((0 : Nat), Session.mk (Channel.mk 1) 0 none),
        (1, Session.mk (Channel.mk 1) 0 none)] 0 "p" (some (JVal.jstr "s"))
      (fun _ => Except.ok JVal.jnull) (by simp [keys])⟩

/-- C6: one reaper sweep at time `now` keeps exactly the sessions whose
inactivity is at or below `STALE_TIMEOUT`, untouched and in order; every
stale session is evicted (channel terminated, entry removed) exactly
once, in registry order; each eviction broadcasts one `leave` with the
evicted id, delivered only to sessions that were still present (open, and
never the evicted session itself), and every surviving open session
receives each `leave` exactly once. -/
theorem claim_reaper (now : Nat) (reg : Registry) (hnd : (keys reg).Nodup) :
    (sweep now reg).1 = reg.filter (fun e => !isStale now e) ∧
    (sweep now reg).2.map Prod.fst = (reg.filter (isStale now)).map Prod.fst ∧
    (∀ ev ∈ (sweep now reg).2,
      (∀ s ∈ ev.2, s.2 = OutMsg.leave ev.1 ∧ s.1 ≠ ev.1 ∧
        ∃ p, (s.1, p) ∈ reg ∧ p.ws.readyState = 1) ∧
      (∀ j q, mapGet (sweep now reg).1 j = some q → q.ws.readyState = 1 →
        (ev.2.filter (fun s => decide (s.1 = j))).length = 1)) := by
  have hspec := sweepGo_spec now reg [] (by simpa using hnd)
  simp only [List.nil_append] at hspec
  rcases hspec with ⟨h1, h2, h3⟩
  refine ⟨h1, h2, ?_⟩
  intro ev hev
  rcases h3 ev hev with ⟨r, hr1, hr2, hr3, hr4⟩
  have hndr : (keys r).Nodup :=
    List.Nodup.sublist (List.Sublist.map Prod.fst hr3) hnd
  constructor
  · intro s hs
    rw [hr1] at hs
    cases s with
    | mk i m' =>
      rcases mem_broadcastSends.mp hs with ⟨hm, _, p, hp, hpr⟩
      refine ⟨hm, ?_, p, hr3.subset hp, hpr⟩
      intro hc
      exact hr2 (hc ▸ mapGet_isSome_of_mem hp)
  · intro j q hq hqr
    simp only [sweep] at hq
    rw [h1] at hq
    have hmem : (j, q) ∈ r := hr4.subset (mapGet_mem hq)
    have hget : mapGet r j = some q := mem_mapGet hndr hmem
    rw [hr1]
    exact broadcastSends_count_one hndr hget hqr (by simp)

/-- C6 witness: at time 20000 a sweep over a stale session 0 (last seen
at 0) and a fresh session 1 (last seen at 20000) evicts exactly session 0
and delivers one `leave 0` to the survivor. -/
theorem claim_reaper_witness :
    (keys [((0 : Nat), Session.mk (Channel.mk 1) 0 none),
      (1, Session.mk (Channel.mk 1) 20000 none)]).Nodup ∧
    ((sweep 20000 [((0 : Nat), Session.mk (Channel.mk 1) 0 none),
        (1, Session.mk (Channel.mk 1) 20000 none)]).1 =
      ([((0 : Nat), Session.mk (Channel.mk 1) 0 none),
        (1, Session.mk (Channel.mk 1) 20000 none)] : Registry).filter
        (fun e => !isStale 20000 e) ∧
    (sweep 20000 [((0 : Nat), Session.mk (Channel.mk 1) 0 none),
        (1, Session.mk (Channel.mk 1) 20000 none)]).2.map Prod.fst =
      (([((0 : Nat), Session.mk (Channel.mk 1) 0 none),
        (1, Session.mk (Channel.mk 1) 20000 none)] : Registry).filter
        (isStale 20000)).map Prod.fst ∧
    (∀ ev ∈ (sweep 20000 [((0 : Nat), Session.mk (Channel.mk 1) 0 none),
        (1, Session.mk (Channel.mk 1) 20000 none)]).2,
      (∀ s ∈ ev.2, s.2 = OutMsg.leave ev.1 ∧ s.1 ≠ ev.1 ∧
        ∃ p, (s.1, p) ∈ [((0 : Nat), Session.mk (Channel.mk 1) 0 none),
          (1, Session.mk (Channel.mk 1) 20000 none)] ∧ p.ws.readyState = 1) ∧
      (∀ j q, mapGet (sweep 20000 [((0 : Nat), Session.mk (Channel.mk 1) 0 none),
          (1, Session.mk (Channel.mk 1) 20000 none)]).1 j = some q →
        q.ws.readyState = 1 →
        (ev.2.filter (fun s => decide (s.1 = j))).length = 1))) :=
  ⟨by simp [keys],
    claim_reaper 20000 [((0 : Nat), Session.mk (Channel.mk 1) 0 none),
      (1, Session.mk (Channel.mk 1) 20000 none)] (by simp [keys])⟩

end Logotopia
